import Mathlib

/-!
Verification of the result-type resolver `MultTrait` from
`src/src/amun/3rd_party/blaze/math/traits/MultTrait.h`.

The header defines a compile-time type-level function: given two operand
types `T1` and `T2`, `MultTrait<T1,T2>::Type` is the type of `T1 * T2`.
The primary template decays both operands (`Decay_`) and, when either
operand carries a const/volatile qualifier or is a reference, recurses on
the decayed pair; otherwise it takes `decltype(declval<T1>() * declval<T2>())`.
Three partial specializations intercept complex/builtin combinations and
compute `CommonType_` of the pair.

We embed C++ types shallowly: `BuiltinTy` enumerates the built-in scalar
types under an LP64 data model, `CType` is an unqualified type (scalar,
`complex<T>`, or a user-defined class type identified by a natural number),
and `OperandTy` is a possibly cv-qualified, possibly reference type.  The
supporting blaze utility headers (`Decay.h`, `IsBuiltin.h`, `IsConst.h`,
`IsVolatile.h`, `IsReference.h`, `CommonType.h`, `Complex.h`, `If.h`,
`Or.h`, `EnableIf.h`) are part of the repository but were not provided, so
their semantics — thin wrappers over the C++ standard traits — are
modelled here from the spec and the C++ standard, each marked in its doc
comment.
-/

/-- Built-in scalar types of the host language that the model covers
(an LP64 data model: `int` is 32 bits, `long` and `long long` are 64). -/
inductive BuiltinTy where
  | boolTy | charTy | scharTy | ucharTy | shortTy | ushortTy
  | intTy | uintTy | longTy | ulongTy | llongTy | ullongTy
  | floatTy | doubleTy | ldoubleTy
deriving DecidableEq, Repr

/-- Floating-point types among the built-in scalars. -/
def isFloat : BuiltinTy → Bool
  | .floatTy | .doubleTy | .ldoubleTy => true
  | _ => false

/-- Conversion rank among the floating-point types (`float < double < long double`). -/
def floatRank : BuiltinTy → Nat
  | .floatTy => 0
  | .doubleTy => 1
  | _ => 2

/-- Integral promotion of the host language: every integer type whose
conversion rank is below `int` promotes to `int` (all its values fit in a
32-bit `int` under LP64). -/
def promote : BuiltinTy → BuiltinTy
  | .boolTy | .charTy | .scharTy | .ucharTy | .shortTy | .ushortTy => .intTy
  | t => t

/-- Unsigned integer types. -/
def isUnsignedTy : BuiltinTy → Bool
  | .ucharTy | .ushortTy | .uintTy | .ulongTy | .ullongTy => true
  | _ => false

/-- Integer conversion rank of the post-promotion integer types. -/
def intRank : BuiltinTy → Nat
  | .intTy | .uintTy => 3
  | .longTy | .ulongTy => 4
  | _ => 5

/-- Bit width of the post-promotion integer types under LP64. -/
def width : BuiltinTy → Nat
  | .intTy | .uintTy => 32
  | _ => 64

/-- Unsigned counterpart of a signed integer type. -/
def toUnsigned : BuiltinTy → BuiltinTy
  | .intTy => .uintTy
  | .longTy => .ulongTy
  | _ => .ullongTy

/-- Usual arithmetic conversions on two already-promoted integer types
(both of rank at least `int`), following the host language's rules: equal
types stay, equal signedness takes the greater rank, otherwise the
unsigned operand wins unless the signed type has strictly more bits. -/
def uacInt (a b : BuiltinTy) : BuiltinTy :=
  if a = b then a
  else if isUnsignedTy a = isUnsignedTy b then
    if intRank b ≤ intRank a then a else b
  else
    let u := if isUnsignedTy a then a else b
    let s := if isUnsignedTy a then b else a
    if intRank s ≤ intRank u then u
    else if width u < width s then s
    else toUnsigned s

/-- Usual arithmetic conversions of the host language: the common type to
which the operands of `a * b` are converted, and hence the declared type
of the multiplication of two built-in scalars. -/
def uac (a b : BuiltinTy) : BuiltinTy :=
  if a = .ldoubleTy ∨ b = .ldoubleTy then .ldoubleTy
  else if a = .doubleTy ∨ b = .doubleTy then .doubleTy
  else if a = .floatTy ∨ b = .floatTy then .floatTy
  else uacInt (promote a) (promote b)

/-- An unqualified, non-reference C++ type in the model: a built-in
scalar, a `complex<T>` (blaze re-exports `std::complex`), or a
user-defined class type identified by a tag. -/
inductive CType where
  | scalar (b : BuiltinTy)
  | complexTy (elem : CType)
  | user (id : Nat)
deriving DecidableEq, Repr

/-- A possibly qualified operand type.  `isC`/`isV` record const/volatile
qualification and `isRef` an lvalue reference; for a reference the cv
flags describe the referee, so `⟨int, true, false, true⟩` is `const int&`.
Reference-to-reference and cv-qualified reference types, ill-formed in the
host language, are unrepresentable. -/
structure OperandTy where
  base : CType
  isC : Bool
  isV : Bool
  isRef : Bool
deriving DecidableEq, Repr

/-- The unqualified, non-reference operand type over a base type. -/
def plain (b : CType) : OperandTy := ⟨b, false, false, false⟩

/-- Modelled from the spec: `Decay_<T>` (blaze/util/typetraits/Decay.h is
not in src/), wrapping `std::decay`: strip the reference and the
top-level cv-qualifiers, leaving the base type. -/
def decay (t : OperandTy) : CType := t.base

/-- Modelled from the spec: `IsConst<T>` (blaze/util/typetraits/IsConst.h
is not in src/), wrapping `std::is_const`; a reference type is never
const-qualified as a whole, so `const int&` is not const here. -/
def IsConst (t : OperandTy) : Bool := !t.isRef && t.isC

/-- Modelled from the spec: `IsVolatile<T>`
(blaze/util/typetraits/IsVolatile.h is not in src/), wrapping
`std::is_volatile`. -/
def IsVolatile (t : OperandTy) : Bool := !t.isRef && t.isV

/-- Modelled from the spec: `IsReference<T>`
(blaze/util/typetraits/IsReference.h is not in src/), wrapping
`std::is_reference`. -/
def IsReference (t : OperandTy) : Bool := t.isRef

/-- Modelled from the spec: `IsBuiltin<T>`
(blaze/util/typetraits/IsBuiltin.h is not in src/): true for the built-in
scalar types, cv-qualified or not, and false for references and class
types. -/
def IsBuiltin (t : OperandTy) : Bool :=
  !t.isRef && (match t.base with | .scalar _ => true | _ => false)

/-- Whether an operand type is exactly the class type `complex<A>` — the
shape matched by the pattern `complex<T1>` of the partial
specializations, which a qualified or reference type never matches. -/
def isComplexClass (t : OperandTy) : Bool :=
  !t.isC && (!t.isV && (!t.isRef && (match t.base with | .complexTy _ => true | _ => false)))

/-- Modelled from the spec: `CommonType_<T1,T2>`
(blaze/util/typetraits/CommonType.h is not in src/), wrapping
`std::common_type` — the spec's "common promoted type".  Arguments are
decayed by `common_type`, so this takes base types.  Two equal types give
that type; two scalars give the usual arithmetic conversion; a scalar and
a `complex<A>` with arithmetic `A` give `complex<A>` (the scalar converts
to it, never conversely); `complex<A>` and `complex<B>` over distinct
floating types give the complex of the higher rank, which is the only
implicit conversion direction of the standard specializations.  Pairs
outside these shapes have no common type (`none` = ill-formed). -/
def commonType : CType → CType → Option CType
  | .scalar a, .scalar b => if a = b then some (.scalar a) else some (.scalar (uac a b))
  | .complexTy a, .scalar _ =>
      (match a with | .scalar _ => some (.complexTy a) | _ => none)
  | .scalar _, .complexTy b =>
      (match b with | .scalar _ => some (.complexTy b) | _ => none)
  | .complexTy a, .complexTy b =>
      if a = b then some (.complexTy a)
      else
        match a, b with
        | .scalar x, .scalar y =>
            if isFloat x && isFloat y then
              some (.complexTy (.scalar (if floatRank y ≤ floatRank x then x else y)))
            else none
        | _, _ => none
  | .user i, .user j => if i = j then some (.user i) else none
  | _, _ => none

/-- Environment of user-declared multiplication operators: `env i j` is
the declared result type of `operator*` between the user types tagged `i`
and `j`, or `none` when no such operator exists. -/
abbrev Env := Nat → Nat → Option CType

/-- The environment with no user-declared multiplication operators. -/
def noMultEnv : Env := fun _ _ => none

/-- Host-language semantics of
`decltype( std::declval<Type1>() * std::declval<Type2>() )` on base
types — the `MultType` member of the primary template.  Two scalars
multiply to their usual-arithmetic-conversion type; `complex<T>`
multiplies with `complex<T>` or with `T` itself (the operator templates
deduce `T` from both operands, so any other element pairing fails
deduction); user types consult the declared-operator environment;
everything else is ill-formed (`none`). -/
def multDecltype (env : Env) : CType → CType → Option CType
  | .scalar a, .scalar b => some (.scalar (uac a b))
  | .complexTy a, .complexTy b => if a = b then some (.complexTy a) else none
  | .complexTy a, .scalar b => if a = .scalar b then some (.complexTy a) else none
  | .scalar a, .complexTy b => if b = .scalar a then some (.complexTy b) else none
  | .user i, .user j => env i j
  | _, _ => none

/-- Match condition of the specialization
`MultTrait< complex<T1>, T2, EnableIf_< IsBuiltin<T2> > >`. -/
def matchCB (t1 t2 : OperandTy) : Bool := isComplexClass t1 && IsBuiltin t2

/-- Match condition of the specialization
`MultTrait< T1, complex<T2>, EnableIf_< IsBuiltin<T1> > >`. -/
def matchBC (t1 t2 : OperandTy) : Bool := IsBuiltin t1 && isComplexClass t2

/-- Match condition of the specialization
`MultTrait< complex<T1>, complex<T2> >`. -/
def matchCC (t1 t2 : OperandTy) : Bool := isComplexClass t1 && isComplexClass t2

/-- The generic fallback (the primary template) handles a pair exactly
when no partial specialization matches it. -/
def matchGeneric (t1 t2 : OperandTy) : Bool :=
  !(matchCB t1 t2 || matchBC t1 t2 || matchCC t1 t2)

/-- The condition `Or< IsConst<T1>, IsVolatile<T1>, IsReference<T1>,
IsConst<T2>, IsVolatile<T2>, IsReference<T2> >` of the primary template's
`If_`. -/
def qualifiedOr (t1 t2 : OperandTy) : Bool :=
  IsConst t1 || IsVolatile t1 || IsReference t1 ||
  IsConst t2 || IsVolatile t2 || IsReference t2

/-- Number of qualifier/reference markers on an operand type; the measure
that shrinks across the primary template's recursive instantiation. -/
def qualCount (t : OperandTy) : Nat :=
  (if t.isC then 1 else 0) + (if t.isV then 1 else 0) + (if t.isRef then 1 else 0)

theorem qualifiedOr_pos {t1 t2 : OperandTy} (h : qualifiedOr t1 t2 = true) :
    0 < qualCount t1 + qualCount t2 := by
  obtain ⟨b1, c1, v1, r1⟩ := t1
  obtain ⟨b2, c2, v2, r2⟩ := t2
  cases c1 <;> cases v1 <;> cases r1 <;> cases c2 <;> cases v2 <;> cases r2 <;>
    simp_all [qualifiedOr, IsConst, IsVolatile, IsReference, qualCount]

/-- The resolver: `MultTrait<T1,T2>::Type` (`MultTrait_<T1,T2>`).  The
three partial specializations intercept the exact `complex` class shapes
and compute `CommonType_`; otherwise the primary template decays both
operands and either recurses on the decayed pair (when an operand is
cv-qualified or a reference) or takes the declared type of the
multiplication expression.  `none` is an ill-formed `Type`, surfaced by
the host compiler as a build error. -/
def Resolve (env : Env) (t1 t2 : OperandTy) : Option CType :=
  if matchCB t1 t2 then commonType t1.base t2.base
  else if matchBC t1 t2 then commonType t1.base t2.base
  else if matchCC t1 t2 then commonType t1.base t2.base
  else if h : qualifiedOr t1 t2 = true then
    Resolve env (plain (decay t1)) (plain (decay t2))
  else multDecltype env (decay t1) (decay t2)
termination_by qualCount t1 + qualCount t2
decreasing_by
  have hp := qualifiedOr_pos h
  have e1 : qualCount (plain (decay t1)) = 0 := rfl
  have e2 : qualCount (plain (decay t2)) = 0 := rfl
  omega

/-- Modelled from the spec: the staged algorithm of spec §4.1 — first
strip const/volatile/reference qualifiers from both operands, then
pattern-match the specializations on the normalized base types, with the
operator-based deduction as the final fallback. -/
def resolveStaged (env : Env) (t1 t2 : OperandTy) : Option CType :=
  if matchCB (plain (decay t1)) (plain (decay t2)) then commonType (decay t1) (decay t2)
  else if matchBC (plain (decay t1)) (plain (decay t2)) then commonType (decay t1) (decay t2)
  else if matchCC (plain (decay t1)) (plain (decay t2)) then commonType (decay t1) (decay t2)
  else multDecltype env (decay t1) (decay t2)

/-- Whether the `If_` of the primary template selects the recursive
instantiation `MultTrait<Type1,Type2>` for a pair: no specialization
matched it and some operand carries a qualifier or reference. -/
def takesRecursiveBranch (t1 t2 : OperandTy) : Bool :=
  matchGeneric t1 t2 && qualifiedOr t1 t2

/-- An environment declaring a single `operator*` between the user types
tagged 0 and 1, returning the distinct (expression-proxy) user type
tagged 2. -/
def proxyEnv : Env := fun i j => if i = 0 ∧ j = 1 then some (.user 2) else none

theorem resolve_plain (env : Env) (t1 t2 : OperandTy) :
    Resolve env t1 t2 = Resolve env (plain t1.base) (plain t2.base) := by
  obtain ⟨b1, c1, v1, r1⟩ := t1
  obtain ⟨b2, c2, v2, r2⟩ := t2
  cases b1 <;> cases b2 <;> cases c1 <;> cases v1 <;> cases r1 <;>
      cases c2 <;> cases v2 <;> cases r2 <;>
    simp [Resolve, plain, decay, matchCB, matchBC, matchCC, isComplexClass, IsBuiltin,
      qualifiedOr, IsConst, IsVolatile, IsReference]

/-- C1: for every pair of unqualified built-in scalar types `A` and `B`,
`Resolve(A,B)` equals the host language's native common-type promotion
for the expression `A*B` — the declared type of multiplying a value of
`A` by a value of `B`, i.e. the usual-arithmetic-conversions type. -/
theorem mult_builtin_promotion (env : Env) (a b : BuiltinTy) :
    Resolve env (plain (.scalar a)) (plain (.scalar b)) =
      multDecltype env (.scalar a) (.scalar b) ∧
    multDecltype env (.scalar a) (.scalar b) = some (.scalar (uac a b)) := by
  constructor
  · simp [Resolve, matchCB, matchBC, matchCC, isComplexClass, IsBuiltin, qualifiedOr,
      IsConst, IsVolatile, IsReference, plain, decay]
  · rfl

/-- C2: adding any combination of const, volatile, or reference
qualifiers to either operand never changes the resolved result type:
`Resolve(Q1(T1), Q2(T2)) = Resolve(T1, T2)` for all qualifier choices,
covering in particular `(const A, B)`, `(A&, B)` and
`(volatile A, const B&)`. -/
theorem mult_qualifier_invariance (env : Env) (b1 b2 : CType)
    (c1 v1 r1 c2 v2 r2 : Bool) :
    Resolve env ⟨b1, c1, v1, r1⟩ ⟨b2, c2, v2, r2⟩ = Resolve env (plain b1) (plain b2) :=
  resolve_plain env ⟨b1, c1, v1, r1⟩ ⟨b2, c2, v2, r2⟩

/-- C3 counterexample: at `T1 = complex<Foo>` (with `Foo` a user-defined
aggregate) and `T2 = int`, the complex-times-builtin specialization
matches, yet resolution still fails because `CommonType_<complex<Foo>, int>`
is itself ill-formed — refuting the claimed equivalence "fails iff no
specialization matches and the operator deduction is ill-formed". -/
theorem mult_fail_iff_counterexample :
    ¬ (Resolve noMultEnv (plain (.complexTy (.user 0))) (plain (.scalar .intTy)) = none ↔
        (matchGeneric (plain (.complexTy (.user 0))) (plain (.scalar .intTy)) = true ∧
         multDecltype noMultEnv (.complexTy (.user 0)) (.scalar .intTy) = none)) := by
  simp [Resolve, matchCB, matchBC, matchCC, matchGeneric, isComplexClass, IsBuiltin,
    qualifiedOr, IsConst, IsVolatile, IsReference, plain, decay, commonType,
    multDecltype, noMultEnv]

/-- C3 amended: resolution fails exactly when either no specialization
matches the qualifier-stripped pair and the operator-based deduction is
ill-formed, or a specialization matches but its common-type computation
is itself ill-formed; in particular two unrelated user-defined aggregate
types with no multiplication operator fail to resolve. -/
theorem mult_fail_iff_amended (env : Env) (t1 t2 : OperandTy) :
    (Resolve env t1 t2 = none ↔
      (if matchGeneric (plain t1.base) (plain t2.base) then
        multDecltype env t1.base t2.base = none
      else commonType t1.base t2.base = none)) ∧
    Resolve noMultEnv (plain (.user 0)) (plain (.user 1)) = none := by
  constructor
  · rw [resolve_plain]
    obtain ⟨b1, c1, v1, r1⟩ := t1
    obtain ⟨b2, c2, v2, r2⟩ := t2
    cases b1 <;> cases b2 <;>
      simp [Resolve, matchCB, matchBC, matchCC, matchGeneric, isComplexClass, IsBuiltin,
        qualifiedOr, IsConst, IsVolatile, IsReference, plain, decay]
  · simp [Resolve, matchCB, matchBC, matchCC, isComplexClass, IsBuiltin, qualifiedOr,
      IsConst, IsVolatile, IsReference, plain, decay, multDecltype, noMultEnv]

/-- C4: for every built-in scalar type `A` and every complex type
`complex<B>`, resolving `(complex<B>, A)` and `(A, complex<B>)` agree,
and both equal the common promoted type of `complex<B>` and `A`. -/
theorem mult_complex_builtin_commute (env : Env) (b : CType) (a : BuiltinTy) :
    Resolve env (plain (.complexTy b)) (plain (.scalar a)) =
      Resolve env (plain (.scalar a)) (plain (.complexTy b)) ∧
    Resolve env (plain (.complexTy b)) (plain (.scalar a)) =
      commonType (.complexTy b) (.scalar a) := by
  constructor <;>
    simp [Resolve, matchCB, matchBC, matchCC, isComplexClass, IsBuiltin, qualifiedOr,
      IsConst, IsVolatile, IsReference, plain, decay, commonType]

/-- C5: for every pair of element types `A` and `B`,
`Resolve(complex<A>, complex<B>)` equals the common promoted type of
`complex<A>` and `complex<B>`. -/
theorem mult_complex_complex_common (env : Env) (a b : CType) :
    Resolve env (plain (.complexTy a)) (plain (.complexTy b)) =
      commonType (.complexTy a) (.complexTy b) := by
  simp [Resolve, matchCB, matchBC, matchCC, isComplexClass, IsBuiltin, qualifiedOr,
    IsConst, IsVolatile, IsReference, plain, decay]

/-- C6: the implementation's order — match specializations on the raw
types, with the generic fallback recursing on the normalized pair when an
operand is qualified or referenced — is observationally equal to the
spec's staged algorithm that first strips qualifiers and then
pattern-matches on the normalized base types. -/
theorem mult_staged_equivalence (env : Env) (t1 t2 : OperandTy) :
    Resolve env t1 t2 = resolveStaged env t1 t2 := by
  rw [resolve_plain]
  obtain ⟨b1, c1, v1, r1⟩ := t1
  obtain ⟨b2, c2, v2, r2⟩ := t2
  cases b1 <;> cases b2 <;>
    simp [Resolve, resolveStaged, matchCB, matchBC, matchCC, isComplexClass, IsBuiltin,
      qualifiedOr, IsConst, IsVolatile, IsReference, plain, decay]

/-- C7: exactly one rule applies to any pair — one of the three
specializations (complex-times-builtin, builtin-times-complex,
complex-times-complex) or the generic fallback — and the specializations
are pairwise non-overlapping, so the resolved result type is uniquely
determined. -/
theorem mult_unique_rule (t1 t2 : OperandTy) :
    ((if matchCB t1 t2 then 1 else 0) + (if matchBC t1 t2 then 1 else 0) +
        (if matchCC t1 t2 then 1 else 0) + (if matchGeneric t1 t2 then 1 else 0) = 1) ∧
    (matchCB t1 t2 && matchBC t1 t2) = false ∧
    (matchCB t1 t2 && matchCC t1 t2) = false ∧
    (matchBC t1 t2 && matchCC t1 t2) = false := by
  obtain ⟨b1, c1, v1, r1⟩ := t1
  obtain ⟨b2, c2, v2, r2⟩ := t2
  cases b1 <;> cases b2 <;> cases c1 <;> cases v1 <;> cases r1 <;>
      cases c2 <;> cases v2 <;> cases r2 <;>
    simp [matchCB, matchBC, matchCC, matchGeneric, isComplexClass, IsBuiltin]

/-- C8: concrete scenarios — `(int,int) ↦ int`, `(int,double) ↦ double`,
`(complex<float>, int) ↦ complex<float>`,
`(complex<float>, complex<double>) ↦ complex<double>`, and
`(const int&, double) ↦ double`. -/
theorem mult_concrete_scenarios (env : Env) :
    Resolve env (plain (.scalar .intTy)) (plain (.scalar .intTy)) =
      some (.scalar .intTy) ∧
    Resolve env (plain (.scalar .intTy)) (plain (.scalar .doubleTy)) =
      some (.scalar .doubleTy) ∧
    Resolve env (plain (.complexTy (.scalar .floatTy))) (plain (.scalar .intTy)) =
      some (.complexTy (.scalar .floatTy)) ∧
    Resolve env (plain (.complexTy (.scalar .floatTy)))
        (plain (.complexTy (.scalar .doubleTy))) =
      some (.complexTy (.scalar .doubleTy)) ∧
    Resolve env ⟨.scalar .intTy, true, false, true⟩ (plain (.scalar .doubleTy)) =
      some (.scalar .doubleTy) := by
  refine ⟨?_, ?_, ?_, ?_, ?_⟩ <;>
    simp [Resolve, matchCB, matchBC, matchCC, isComplexClass, IsBuiltin, qualifiedOr,
      IsConst, IsVolatile, IsReference, plain, decay, commonType, multDecltype,
      uac, uacInt, promote, isFloat, floatRank]

/-- C9: the generic fallback's recursion terminates in at most one step:
the decayed operands carry no const/volatile/reference markers, so the
recursive instantiation on the decayed pair never takes the recursive
branch again, and the resolver is a total function whose value at any
pair is its value at the decayed pair. -/
theorem mult_recursion_one_step (env : Env) (t1 t2 : OperandTy) :
    qualifiedOr (plain (decay t1)) (plain (decay t2)) = false ∧
    takesRecursiveBranch (plain (decay t1)) (plain (decay t2)) = false ∧
    Resolve env t1 t2 = Resolve env (plain (decay t1)) (plain (decay t2)) := by
  refine ⟨rfl, ?_, resolve_plain env t1 t2⟩
  simp [takesRecursiveBranch, qualifiedOr, IsConst, IsVolatile, IsReference, plain, decay]

/-- C10: for every pair of unqualified, non-reference types matching no
specialization, the resolver returns exactly the declared type of the
expression `T1 * T2`, with no further normalization — so an
expression-proxy result type of a user-declared multiplication operator
is returned as is. -/
theorem mult_generic_decltype (env : Env) (t1 t2 : OperandTy)
    (hq : qualifiedOr t1 t2 = false) (hg : matchGeneric t1 t2 = true) :
    Resolve env t1 t2 = multDecltype env t1.base t2.base := by
  cases hcb : matchCB t1 t2 <;> cases hbc : matchBC t1 t2 <;> cases hcc : matchCC t1 t2 <;>
    simp_all [Resolve, matchGeneric, decay]

/-- C10 witness: between the user types 0 and 1, whose declared
multiplication operator returns the proxy type 2, the resolver yields
exactly that proxy type. -/
theorem mult_generic_decltype_witness :
    Resolve proxyEnv (plain (.user 0)) (plain (.user 1)) = some (.user 2) := by
  have h := mult_generic_decltype proxyEnv (plain (.user 0)) (plain (.user 1)) rfl rfl
  simpa [multDecltype, proxyEnv, plain] using h
